import Mathlib

/-!
Shallow embedding of the ArduPilot navigation core
(`src/libraries/AC_WPNav/AC_WPNav.cpp`) and the barometer drift estimator
(`src/unnamed/part_000`, the body of `AP_Baro` whose header is
`src/libraries/AP_Baro/AP_Baro.h`).

Floating-point arithmetic is modelled over the real numbers.  Division
follows Lean's convention `x / 0 = 0`.  External collaborators (the
inertial navigation source, the AHRS and the position controller, see
spec section 6) are modelled as inputs supplied at each call: their
read-out values (`get_position`, `get_velocity`, `get_leash_xy`,
`get_leash_up_z`, `get_leash_down_z`, `get_pos_xy_kP`, `cos_yaw`,
`sin_yaw`) form an environment record, and the values the navigator
writes into the position controller (`set_pos_target`,
`set_desired_velocity`, `set_speed_xy`, `set_accel_xy`, `set_speed_z`)
are carried as fields of the navigator state.
-/

namespace ArduNav

/-- 3-vector over the reals, modelling `Vector3f`. -/
@[ext] structure Vec3 where
  x : ℝ
  y : ℝ
  z : ℝ


namespace Vec3

def add (a b : Vec3) : Vec3 := ⟨a.x + b.x, a.y + b.y, a.z + b.z⟩

def sub (a b : Vec3) : Vec3 := ⟨a.x - b.x, a.y - b.y, a.z - b.z⟩

def neg (a : Vec3) : Vec3 := ⟨-a.x, -a.y, -a.z⟩

/-- `Vector3f * float` (scalar on the right, as written in the source). -/
def smul (a : Vec3) (c : ℝ) : Vec3 := ⟨a.x * c, a.y * c, a.z * c⟩

/-- `Vector3f / float`. -/
noncomputable def divR (a : Vec3) (c : ℝ) : Vec3 := ⟨a.x / c, a.y / c, a.z / c⟩

/-- `Vector3f::length()`. -/
noncomputable def length (a : Vec3) : ℝ := Real.sqrt (a.x * a.x + a.y * a.y + a.z * a.z)

def zero : Vec3 := ⟨0, 0, 0⟩

end Vec3

/-- `pythagorous2` from AP_Math: `sqrt(sq(a)+sq(b))`. -/
noncomputable def pythagorous2 (a b : ℝ) : ℝ := Real.sqrt (a * a + b * b)

/-- `constrain_float(amt, low, high)` from AP_Math:
return `low` when `amt < low`, `high` when `amt > high`, else `amt`. -/
noncomputable def constrainFloat (amt low high : ℝ) : ℝ :=
  if amt < low then low else if high < amt then high else amt

/-- Modelled from the spec: the numeric `WPNAV_*` constants live in
`AC_WPNav.h`, which is not under `src/`; they are carried as parameters.
The spec (section 3) gives defaults `WP_ACCEL = 100`,
`LOITER_ACCEL_MIN ≈ 25` and names `ALT_HOLD_ACCEL_MAX`,
`LEASH_LENGTH_MIN`, `LOITER_SPEED_MIN` and the waypoint-speed minimum
without fixing their values. -/
structure Consts where
  wpnavAcceleration : ℝ
  wpnavAltHoldAccelMax : ℝ
  wpnavLeashLengthMin : ℝ
  wpnavLoiterSpeedMin : ℝ
  wpnavLoiterAccelMin : ℝ
  wpnavWpSpeedMin : ℝ


/-! ## Loiter controller -/

/-- The state read and written by `AC_WPNav::calc_loiter_desired_velocity`:
the loiter parameters and pilot accelerations of `AC_WPNav`, plus the
position controller's feed-forward desired velocity
(`get_desired_velocity` / `set_desired_velocity`). -/
structure LoiterState where
  loiterSpeedCms : ℝ
  loiterAccelCms : ℝ
  pilotAccelFwdCms : ℝ
  pilotAccelRgtCms : ℝ
  desiredVelX : ℝ
  desiredVelY : ℝ


/-- The loiter-speed floor at the top of `calc_loiter_desired_velocity`
(AC_WPNav.cpp lines 182-186): check loiter speed and avoid divide by
zero. -/
noncomputable def loiterSpeedFloor (c : Consts) (st : LoiterState) : LoiterState :=
  if st.loiterSpeedCms < c.wpnavLoiterSpeedMin then
    { st with loiterSpeedCms := c.wpnavLoiterSpeedMin,
              loiterAccelCms := c.wpnavLoiterSpeedMin / 2 }
  else st

/-- One axis of the fake wind resistance of
`calc_loiter_desired_velocity` (AC_WPNav.cpp lines 199-213): a linear
drag term followed by a constant braking term clamped not to cross
zero. -/
noncomputable def loiterDragAxis (c : Consts) (navDt accel speed v : ℝ) : ℝ :=
  if 0 < v then
    max (v - (accel - c.wpnavLoiterAccelMin) * navDt * v / speed
          - c.wpnavLoiterAccelMin * navDt) 0
  else if v < 0 then
    min (v - (accel - c.wpnavLoiterAccelMin) * navDt * v / speed
          + c.wpnavLoiterAccelMin * navDt) 0
  else v

/-- `AC_WPNav::calc_loiter_desired_velocity(float nav_dt)`
(AC_WPNav.cpp lines 175-224).  `cosYaw`/`sinYaw` are the AHRS read-outs. -/
noncomputable def calcLoiterDesiredVelocity (c : Consts) (navDt cosYaw sinYaw : ℝ)
    (st : LoiterState) : LoiterState :=
  -- range check nav_dt
  if navDt < 0 then st
  else
    let st1 := loiterSpeedFloor c st
    -- rotate pilot input to lat/lon frame and integrate into the
    -- feed forward velocity
    let vx0 := st1.desiredVelX
      + (st1.pilotAccelFwdCms * cosYaw - st1.pilotAccelRgtCms * sinYaw) * navDt
    let vy0 := st1.desiredVelY
      + (st1.pilotAccelFwdCms * sinYaw + st1.pilotAccelRgtCms * cosYaw) * navDt
    -- reduce velocity with fake wind resistance
    let vx1 := loiterDragAxis c navDt st1.loiterAccelCms st1.loiterSpeedCms vx0
    let vy1 := loiterDragAxis c navDt st1.loiterAccelCms st1.loiterSpeedCms vy0
    -- constrain and scale the feed forward velocity if necessary
    let velTotal := pythagorous2 vx1 vy1
    if st1.loiterSpeedCms < velTotal ∧ 0 < velTotal then
      { st1 with desiredVelX := st1.loiterSpeedCms * vx1 / velTotal,
                 desiredVelY := st1.loiterSpeedCms * vy1 / velTotal }
    else
      { st1 with desiredVelX := vx1, desiredVelY := vy1 }

/-! ## Waypoint navigation: straight segments -/

/-- Segment type flag of `AC_WPNav`. -/
inductive SegmentType where
  | straight
  | spline
  deriving DecidableEq

/-- Read-outs from the external collaborators consumed by the waypoint
functions: inertial navigation position/velocity and the position
controller's leash lengths and horizontal position gain. -/
structure WPEnv where
  currPos : Vec3
  currVel : Vec3
  leashXy : ℝ
  leashUpZ : ℝ
  leashDownZ : ℝ
  kP : ℝ

/-- The `AC_WPNav` state touched by the straight-segment functions: the
stored parameters (`_wp_speed_cms`, ...), the segment state, and the
values pushed into the position controller (`pc*` fields). -/
structure WPNavState where
  wpSpeedCms : ℝ
  wpRadiusCm : ℝ
  wpSpeedUpCms : ℝ
  wpSpeedDownCms : ℝ
  wpAccelCms : ℝ
  origin : Vec3
  destination : Vec3
  posDeltaUnit : Vec3
  trackLength : ℝ
  trackDesired : ℝ
  trackAccel : ℝ
  trackSpeed : ℝ
  trackLeashLength : ℝ
  limitedSpeedXyCms : ℝ
  yaw : ℝ
  reachedDestination : Bool
  fastWaypoint : Bool
  segmentType : SegmentType
  pcPosTarget : Vec3
  pcSpeedXy : ℝ
  pcAccelXy : ℝ
  pcSpeedDownZ : ℝ
  pcSpeedUpZ : ℝ

/-- Mathematical `atan2f(y, x)`. -/
noncomputable def atan2 (y x : ℝ) : ℝ :=
  if 0 < x then Real.arctan (y / x)
  else if x < 0 ∧ 0 ≤ y then Real.arctan (y / x) + Real.pi
  else if x < 0 ∧ y < 0 then Real.arctan (y / x) - Real.pi
  else if x = 0 ∧ 0 < y then Real.pi / 2
  else if x = 0 ∧ y < 0 then -(Real.pi / 2)
  else 0

/-- `AC_WPNav::get_bearing_cd` (AC_WPNav.cpp lines 775-782). -/
noncomputable def getBearingCd (origin destination : Vec3) : ℝ :=
  let bearing := 9000 + atan2 (-(destination.x - origin.x)) (destination.y - origin.y) * 5729.57795
  if bearing < 0 then bearing + 36000 else bearing

/-- `pos_delta_unit_xy` (AC_WPNav.cpp line 495): length of the unit
direction vector in the horizontal. -/
noncomputable def posDeltaUnitXy (st : WPNavState) : ℝ :=
  pythagorous2 st.posDeltaUnit.x st.posDeltaUnit.y

/-- `_track_accel` as computed by `calculate_wp_leash_length`
(AC_WPNav.cpp lines 509-525). -/
noncomputable def calcTrackAccel (c : Consts) (st : WPNavState) : ℝ :=
  if |st.posDeltaUnit.z| = 0 ∧ posDeltaUnitXy st = 0 then 0
  else if st.posDeltaUnit.z = 0 then st.wpAccelCms / posDeltaUnitXy st
  else if posDeltaUnitXy st = 0 then c.wpnavAltHoldAccelMax / |st.posDeltaUnit.z|
  else min (c.wpnavAltHoldAccelMax / |st.posDeltaUnit.z|)
           (st.wpAccelCms / posDeltaUnitXy st)

/-- `_track_speed` as computed by `calculate_wp_leash_length`
(AC_WPNav.cpp lines 498-525); `speed_z` picks the climb or descent
speed by the sign of the direction's z component. -/
noncomputable def calcTrackSpeed (st : WPNavState) : ℝ :=
  if |st.posDeltaUnit.z| = 0 ∧ posDeltaUnitXy st = 0 then 0
  else if st.posDeltaUnit.z = 0 then st.wpSpeedCms / posDeltaUnitXy st
  else if posDeltaUnitXy st = 0 then
    (if 0 ≤ st.posDeltaUnit.z then st.wpSpeedUpCms else st.wpSpeedDownCms)
      / |st.posDeltaUnit.z|
  else min ((if 0 ≤ st.posDeltaUnit.z then st.wpSpeedUpCms else st.wpSpeedDownCms)
      / |st.posDeltaUnit.z|) (st.wpSpeedCms / posDeltaUnitXy st)

/-- `_track_leash_length` as computed by `calculate_wp_leash_length`
(AC_WPNav.cpp lines 498-525); `leash_z` picks the up or down leash by
the sign of the direction's z component. -/
noncomputable def calcTrackLeash (c : Consts) (env : WPEnv) (st : WPNavState) : ℝ :=
  if |st.posDeltaUnit.z| = 0 ∧ posDeltaUnitXy st = 0 then c.wpnavLeashLengthMin
  else if st.posDeltaUnit.z = 0 then env.leashXy / posDeltaUnitXy st
  else if posDeltaUnitXy st = 0 then
    (if 0 ≤ st.posDeltaUnit.z then env.leashUpZ else env.leashDownZ)
      / |st.posDeltaUnit.z|
  else min ((if 0 ≤ st.posDeltaUnit.z then env.leashUpZ else env.leashDownZ)
      / |st.posDeltaUnit.z|) (env.leashXy / posDeltaUnitXy st)

/-- `AC_WPNav::calculate_wp_leash_length` (AC_WPNav.cpp lines 492-526):
recomputes `_track_accel`, `_track_speed` and `_track_leash_length` from
the stored `_pos_delta_unit` and parameters.  The position-controller
leash read-outs come from the environment. -/
noncomputable def calculateWpLeashLength (c : Consts) (env : WPEnv)
    (st : WPNavState) : WPNavState :=
  { st with trackAccel := calcTrackAccel c st,
            trackSpeed := calcTrackSpeed st,
            trackLeashLength := calcTrackLeash c env st }

/-- The first block of `AC_WPNav::set_wp_origin_and_destination`
(AC_WPNav.cpp lines 293-320): store the endpoints, the track length and
the unit direction vector (zero-vector sentinel for a zero-length
track), sanity-check `_wp_accel_cms`, and push speeds and accelerations
into the position controller. -/
noncomputable def setWpParamState (c : Consts) (origin destination : Vec3)
    (st : WPNavState) : WPNavState :=
  { st with
    origin := origin
    destination := destination
    posDeltaUnit := if (destination.sub origin).length = 0 then Vec3.zero
      else (destination.sub origin).divR (destination.sub origin).length
    trackLength := (destination.sub origin).length
    wpAccelCms := if st.wpAccelCms ≤ 0 then c.wpnavAcceleration else st.wpAccelCms
    pcSpeedXy := st.wpSpeedCms
    pcAccelXy := if st.wpAccelCms ≤ 0 then c.wpnavAcceleration else st.wpAccelCms
    pcSpeedDownZ := -st.wpSpeedDownCms
    pcSpeedUpZ := st.wpSpeedUpCms }

/-- `AC_WPNav::set_wp_origin_and_destination` (AC_WPNav.cpp lines
291-340). -/
noncomputable def setWpOriginAndDestination (c : Consts) (env : WPEnv)
    (origin destination : Vec3) (st : WPNavState) : WPNavState :=
  -- store endpoints and track geometry, then calculate leash lengths
  let st2 := calculateWpLeashLength c env (setWpParamState c origin destination st)
  -- initialise yaw heading, intermediate point and flags
  let st3 := { st2 with
    yaw := getBearingCd origin destination
    pcPosTarget := origin
    trackDesired := 0
    reachedDestination := false
    fastWaypoint := false
    segmentType := SegmentType.straight }
  -- initialise the limited speed to current speed along the track
  { st3 with limitedSpeedXyCms :=
      (constrainFloat (env.currVel.x * st3.posDeltaUnit.x
        + env.currVel.y * st3.posDeltaUnit.y
        + env.currVel.z * st3.posDeltaUnit.z) 0 st3.wpSpeedCms) }

/-- `AC_WPNav::set_horizontal_velocity` (AC_WPNav.cpp lines 263-270). -/
noncomputable def setHorizontalVelocity (c : Consts) (velocityCms : ℝ)
    (st : WPNavState) : WPNavState :=
  -- range check new target speed and update position controller
  if c.wpnavWpSpeedMin ≤ st.wpSpeedCms then
    { st with wpSpeedCms := velocityCms, pcSpeedXy := velocityCms }
  else st

/-- Speed of the vehicle along the track
(`curr_vel . _pos_delta_unit`, AC_WPNav.cpp line 393). -/
def advSpeedAlongTrack (env : WPEnv) (st : WPNavState) : ℝ :=
  env.currVel.x * st.posDeltaUnit.x + env.currVel.y * st.posDeltaUnit.y
    + env.currVel.z * st.posDeltaUnit.z

/-- `linear_velocity` as computed at AC_WPNav.cpp lines 396-400:
point at which velocity switches from linear to sqrt. -/
noncomputable def advLinearVelocity (env : WPEnv) (st : WPNavState) : ℝ :=
  if 0 ≤ env.kP then st.trackAccel / env.kP else st.wpSpeedCms

/-- `track_desired_max` as computed at AC_WPNav.cpp lines 351-388: how far
along the track the intermediate target may be moved before reaching the
end of the leash. -/
noncomputable def advTrackDesiredMax (env : WPEnv) (st : WPNavState) : ℝ :=
  let currDelta := env.currPos.sub st.origin
  let trackCovered := currDelta.x * st.posDeltaUnit.x + currDelta.y * st.posDeltaUnit.y
    + currDelta.z * st.posDeltaUnit.z
  let trackCoveredPos := st.posDeltaUnit.smul trackCovered
  let trackError := currDelta.sub trackCoveredPos
  let trackErrorXy := pythagorous2 trackError.x trackError.y
  let trackErrorZ := |trackError.z|
  let leashXy := env.leashXy
  let leashZ := if 0 ≤ trackError.z then env.leashUpZ else env.leashDownZ
  let trackExtraMax := min (st.trackLeashLength * (leashZ - trackErrorZ) / leashZ)
                           (st.trackLeashLength * (leashXy - trackErrorXy) / leashXy)
  if trackExtraMax < 0 then trackCovered else trackCovered + trackExtraMax

/-- `_limited_speed_xy_cms` after the acceleration step at AC_WPNav.cpp
lines 408-415: increase the intermediate target point's velocity if the
carrot may still move forward. -/
noncomputable def advLs1 (env : WPEnv) (dt : ℝ) (st : WPNavState) : ℝ :=
  if 0 < dt ∧ st.trackDesired < advTrackDesiredMax env st then
    st.limitedSpeedXyCms + 2 * st.trackAccel * dt
  else st.limitedSpeedXyCms

/-- `_limited_speed_xy_cms` after the top-speed cap at AC_WPNav.cpp
lines 417-419: do not go over top speed. -/
noncomputable def advLs2 (env : WPEnv) (dt : ℝ) (st : WPNavState) : ℝ :=
  if st.trackSpeed < advLs1 env dt st then st.trackSpeed else advLs1 env dt st

/-- The value of `_limited_speed_xy_cms` after the speed-update block of
`advance_wp_target_along_track` (AC_WPNav.cpp lines 402-424). -/
noncomputable def advNewLimitedSpeed (env : WPEnv) (dt : ℝ) (st : WPNavState) : ℝ :=
  if advSpeedAlongTrack env st < -advLinearVelocity env st then
    -- travelling fast in the opposite direction: do not move the intermediate point
    0
  -- limit to within linear_velocity of the current velocity along track
  else if |advSpeedAlongTrack env st| < advLinearVelocity env st then
    constrainFloat (advLs2 env dt st)
      (advSpeedAlongTrack env st - advLinearVelocity env st)
      (advSpeedAlongTrack env st + advLinearVelocity env st)
  else advLs2 env dt st

/-- The value `_track_desired` holds after the speed-update block but
before the final advance (the `_track_desired = track_desired_max`
assignment at AC_WPNav.cpp line 413, when taken). -/
noncomputable def advDesiredMid (env : WPEnv) (dt : ℝ) (st : WPNavState) : ℝ :=
  if advSpeedAlongTrack env st < -advLinearVelocity env st then st.trackDesired
  else if 0 < dt ∧ ¬st.trackDesired < advTrackDesiredMax env st then
    advTrackDesiredMax env st
  else st.trackDesired

/-- The value of `_track_desired` after
`advance_wp_target_along_track` (AC_WPNav.cpp lines 426-430). -/
noncomputable def advNewTrackDesired (env : WPEnv) (dt : ℝ) (st : WPNavState) : ℝ :=
  -- track_desired_temp was captured before the update and advances with
  -- the new limited speed; do not let it pass the end of the segment
  max (advDesiredMid env dt st)
      (constrainFloat (st.trackDesired + advNewLimitedSpeed env dt st * dt) 0 st.trackLength)

/-- `AC_WPNav::advance_wp_target_along_track(float dt)`
(AC_WPNav.cpp lines 349-450). -/
noncomputable def advanceWpTargetAlongTrack (env : WPEnv) (dt : ℝ)
    (st : WPNavState) : WPNavState :=
  let newLimited := advNewLimitedSpeed env dt st
  let newDesired := advNewTrackDesired env dt st
  -- recalculate the desired position
  let newPosTarget := st.origin.add (st.posDeltaUnit.smul newDesired)
  -- check if we've reached the waypoint
  let newReached :=
    if ¬st.reachedDestination then
      if st.trackLength ≤ newDesired then
        if st.fastWaypoint then true
        else if (env.currPos.sub st.destination).length ≤ st.wpRadiusCm then true
        else st.reachedDestination
      else st.reachedDestination
    else st.reachedDestination
  { st with limitedSpeedXyCms := newLimited, trackDesired := newDesired,
            pcPosTarget := newPosTarget, reachedDestination := newReached }

/-- A sequence of `advance_wp_target_along_track` calls, each with its own
inertial/position-controller read-outs and time step. -/
noncomputable def advanceList (steps : List (WPEnv × ℝ)) (st : WPNavState) : WPNavState :=
  steps.foldl (fun s p => advanceWpTargetAlongTrack p.1 p.2 s) st

/-! ## Spline methods -/

/-- The `_hermite_spline_solution` grid of `AC_WPNav`. -/
@[ext] structure HermiteSolution where
  h0 : Vec3
  h1 : Vec3
  h2 : Vec3
  h3 : Vec3

/-- `AC_WPNav::update_spline_solution` (AC_WPNav.cpp lines 697-703). -/
def updateSplineSolution (origin dest originVel destVel : Vec3) : HermiteSolution where
  h0 := origin
  h1 := originVel
  h2 := ((origin.neg.smul 3).sub (originVel.smul 2)).add ((dest.smul 3).sub destVel)
  h3 := (((origin.smul 2).add originVel).sub (dest.smul 2)).add destVel

/-- `AC_WPNav::calc_spline_pos_vel` (AC_WPNav.cpp lines 753-766): target
position and velocity for the given `spline_time`. -/
def calcSplinePosVel (sol : HermiteSolution) (splineTime : ℝ) : Vec3 × Vec3 :=
  let splineTimeSqrd := splineTime * splineTime
  let splineTimeCubed := splineTimeSqrd * splineTime
  let position := ((sol.h0.add (sol.h1.smul splineTime)).add
      (sol.h2.smul splineTimeSqrd)).add (sol.h3.smul splineTimeCubed)
  let velocity := (sol.h1.add ((sol.h2.smul 2).smul splineTime)).add
      ((sol.h3.smul 3).smul splineTimeSqrd)
  (position, velocity)

/-- Modelled from the spec (section 4.3): the Hermite coefficients the
spec prescribes for endpoints `p0, p1` and tangents `v0, v1`:
`H0 = p0`, `H1 = v0`, `H2 = −3p0 − 2v0 + 3p1 − v1`,
`H3 = 2p0 + v0 − 2p1 + v1`. -/
def hermiteSpecCoeffs (p0 p1 v0 v1 : Vec3) : HermiteSolution where
  h0 := p0
  h1 := v0
  h2 := ⟨-3 * p0.x - 2 * v0.x + 3 * p1.x - v1.x,
         -3 * p0.y - 2 * v0.y + 3 * p1.y - v1.y,
         -3 * p0.z - 2 * v0.z + 3 * p1.z - v1.z⟩
  h3 := ⟨2 * p0.x + v0.x - 2 * p1.x + v1.x,
         2 * p0.y + v0.y - 2 * p1.y + v1.y,
         2 * p0.z + v0.z - 2 * p1.z + v1.z⟩

/-- Modelled from the spec (section 4.3): the formal derivative
`P'(s) = H1 + 2H2·s + 3H3·s²` of the position polynomial. -/
def hermiteSpecDeriv (sol : HermiteSolution) (s : ℝ) : Vec3 :=
  ⟨sol.h1.x + 2 * sol.h2.x * s + 3 * sol.h3.x * s ^ 2,
   sol.h1.y + 2 * sol.h2.y * s + 3 * sol.h3.y * s ^ 2,
   sol.h1.z + 2 * sol.h2.z * s + 3 * sol.h3.z * s ^ 2⟩

/-! ## Barometer drift estimator -/

/-- Modelled from the spec (section 4.4): `LowPassFilterFloat` from the
Filter library is not under `src/`; the spec describes it as a
first-order low-pass filter whose time constant is set from the sample
period and `drift_tc` at each call.  `output` tracks the applied samples
with smoothing factor `alpha`. -/
structure LowPassFilter where
  alpha : ℝ
  output : ℝ

/-- Modelled from the spec: `set_time_constant(dt, tc)` of the first-order
low-pass filter; the standard discretisation `alpha = dt/(dt+tc)`. -/
noncomputable def LowPassFilter.setTimeConstant (f : LowPassFilter) (dt tc : ℝ) :
    LowPassFilter :=
  { f with alpha := dt / (dt + tc) }

/-- Modelled from the spec: `apply(sample)` of the first-order low-pass
filter moves the output toward the sample by the fraction `alpha` and
returns it. -/
def LowPassFilter.apply (f : LowPassFilter) (sample : ℝ) : LowPassFilter :=
  { f with output := f.output + (sample - f.output) * f.alpha }

/-- The `AP_Baro` state touched by `update_drift_estimate`
(declared in src/libraries/AP_Baro/AP_Baro.h lines 94-109). -/
structure BaroState where
  altitude : ℝ
  altOffset : ℝ
  calTime : ℝ
  driftEst : ℝ
  driftGndLevel : ℝ
  driftInitCount : ℕ
  driftFilter : LowPassFilter
  driftTc : ℝ
  driftInitPeriod : ℝ

/-- `AP_Baro::get_drift_estimate` (AP_Baro.h line 85). -/
def getDriftEstimate (st : BaroState) : ℝ := st.driftEst

/-- The `_drift_init_count > 0` block of `AP_Baro::update_drift_estimate`
(src/unnamed/part_000 lines 230-239). -/
noncomputable def driftInitStep (dt : ℝ) (st : BaroState) : BaroState :=
  -- finish the ground-level average on the first call past the window
  if 0 < st.driftInitCount then
    let f := st.driftFilter.setTimeConstant dt st.driftTc
    let f1 := f.apply 0
    { st with driftGndLevel := st.driftGndLevel / st.driftInitCount,
              driftInitCount := 0,
              driftFilter := f1,
              driftEst := f1.output }
  else st

/-- `AP_Baro::update_drift_estimate(float alt, float dt)`
(src/unnamed/part_000 lines 222-259).  `now` is the
`hal.scheduler->millis()` read-out. -/
noncomputable def updateDriftEstimate (now alt dt : ℝ) (st : BaroState) : BaroState :=
  if now < st.calTime + st.driftInitPeriod * 1000 then
    { st with driftGndLevel := st.driftGndLevel + alt,
              driftInitCount := st.driftInitCount + 1 }
  else
    let st1 := driftInitStep dt st
    if st1.driftTc < 0 then
      { st1 with driftEst := 0 }
    else
      let innov := st1.altitude + st1.altOffset - st1.driftEst
        - (alt - st1.driftGndLevel)
      -- 5 metre gate to guard against sensor glitching
      if innov < 5 then
        let f := st1.driftFilter.setTimeConstant dt st1.driftTc
        let f1 := f.apply (innov + st1.driftEst)
        { st1 with driftFilter := f1, driftEst := f1.output }
      else st1

/-! ## Invariants and sample inputs -/

/-- Inductive invariant of the straight-segment state machine. -/
def WPInv (st : WPNavState) : Prop :=
  0 ≤ st.limitedSpeedXyCms ∧ 0 ≤ st.trackDesired ∧
    st.trackDesired ≤ st.trackLength ∧ 0 ≤ st.trackAccel ∧ 0 ≤ st.trackSpeed

/-- Constants at the spec's default values (spec section 3):
`WP_ACCEL = 100`, `ALT_HOLD_ACCEL_MAX = 250`, `LEASH_LENGTH_MIN = 100`,
`LOITER_SPEED_MIN = 25`, `LOITER_ACCEL_MIN = 25`, waypoint speed
minimum `100`. -/
noncomputable def sampleConsts : Consts :=
  { wpnavAcceleration := 100
    wpnavAltHoldAccelMax := 250
    wpnavLeashLengthMin := 100
    wpnavLoiterSpeedMin := 25
    wpnavLoiterAccelMin := 25
    wpnavWpSpeedMin := 100 }

/-- A concrete collaborator read-out: vehicle at home climbing at
400 cm/s, leashes of 1000 cm, unit position gain. -/
noncomputable def sampleEnv : WPEnv :=
  { currPos := ⟨0, 0, 0⟩
    currVel := ⟨0, 0, 400⟩
    leashXy := 1000
    leashUpZ := 1000
    leashDownZ := 1000
    kP := 1 }

/-- A concrete navigator state holding the spec's default parameters. -/
noncomputable def sampleWpState : WPNavState :=
  { wpSpeedCms := 500
    wpRadiusCm := 200
    wpSpeedUpCms := 250
    wpSpeedDownCms := 150
    wpAccelCms := 100
    origin := ⟨0, 0, 0⟩
    destination := ⟨0, 0, 0⟩
    posDeltaUnit := ⟨0, 0, 0⟩
    trackLength := 0
    trackDesired := 0
    trackAccel := 0
    trackSpeed := 0
    trackLeashLength := 100
    limitedSpeedXyCms := 0
    yaw := 0
    reachedDestination := false
    fastWaypoint := false
    segmentType := SegmentType.straight
    pcPosTarget := ⟨0, 0, 0⟩
    pcSpeedXy := 500
    pcAccelXy := 100
    pcSpeedDownZ := -150
    pcSpeedUpZ := 250 }

/-- A concrete loiter state. -/
noncomputable def sampleLoiterState : LoiterState :=
  { loiterSpeedCms := 500
    loiterAccelCms := 250
    pilotAccelFwdCms := 100
    pilotAccelRgtCms := -50
    desiredVelX := 300
    desiredVelY := -200 }

/-- A concrete barometer state whose drift initialisation window
(180 s from `calTime = 0`) is over and fully averaged. -/
noncomputable def sampleBaroState : BaroState :=
  { altitude := 30
    altOffset := 0
    calTime := 0
    driftEst := 2
    driftGndLevel := 10
    driftInitCount := 0
    driftFilter := { alpha := 1 / 2, output := 2 }
    driftTc := 180
    driftInitPeriod := 180 }

/-! ## Helper lemmas -/

lemma pythagorous2_nonneg (a b : ℝ) : 0 ≤ pythagorous2 a b :=
  Real.sqrt_nonneg _

lemma constrainFloat_mem (amt low high : ℝ) (h : low ≤ high) :
    low ≤ constrainFloat amt low high ∧ constrainFloat amt low high ≤ high := by
  unfold constrainFloat
  split_ifs <;> constructor <;> linarith

lemma constrainFloat_ge_of_le (amt low high x : ℝ) (hlo : low ≤ x) (hhi : x ≤ high)
    (hamt : x ≤ amt) : x ≤ constrainFloat amt low high := by
  unfold constrainFloat
  split_ifs <;> linarith

lemma advLs1_nonneg (env : WPEnv) (dt : ℝ) (st : WPNavState)
    (hlim : 0 ≤ st.limitedSpeedXyCms) (hacc : 0 ≤ st.trackAccel) (hdt : 0 ≤ dt) :
    0 ≤ advLs1 env dt st := by
  unfold advLs1
  split_ifs with h
  · nlinarith
  · exact hlim

lemma advLs2_bounds (env : WPEnv) (dt : ℝ) (st : WPNavState)
    (hlim : 0 ≤ st.limitedSpeedXyCms) (hacc : 0 ≤ st.trackAccel)
    (hspd : 0 ≤ st.trackSpeed) (hdt : 0 ≤ dt) :
    0 ≤ advLs2 env dt st ∧ advLs2 env dt st ≤ st.trackSpeed := by
  unfold advLs2
  split_ifs with h
  · exact ⟨hspd, le_refl _⟩
  · exact ⟨advLs1_nonneg env dt st hlim hacc hdt, not_lt.1 h⟩

/-- After any `advance_wp_target_along_track` call from a state with
non-negative limited speed, track acceleration and track speed, the new
`_limited_speed_xy_cms` lies in `[0, _track_speed]`. -/
lemma advNewLimitedSpeed_bounds (env : WPEnv) (dt : ℝ) (st : WPNavState)
    (hlim : 0 ≤ st.limitedSpeedXyCms) (hacc : 0 ≤ st.trackAccel)
    (hspd : 0 ≤ st.trackSpeed) (hdt : 0 ≤ dt) :
    0 ≤ advNewLimitedSpeed env dt st ∧ advNewLimitedSpeed env dt st ≤ st.trackSpeed := by
  obtain ⟨hb0, hb1⟩ := advLs2_bounds env dt st hlim hacc hspd hdt
  unfold advNewLimitedSpeed
  split_ifs with h1 h2
  · exact ⟨le_refl 0, hspd⟩
  · obtain ⟨hl, hr⟩ := abs_lt.1 h2
    unfold constrainFloat
    split_ifs with h3 h4
    · exact absurd (lt_trans (lt_of_le_of_lt hb0 h3) (by linarith)) (lt_irrefl 0)
    · exact ⟨by linarith, le_trans (le_of_lt h4) hb1⟩
    · exact ⟨hb0, hb1⟩
  · exact ⟨hb0, hb1⟩

/-- The `_track_desired = track_desired_max` assignment (when taken)
never raises `_track_desired`. -/
lemma advDesiredMid_le (env : WPEnv) (dt : ℝ) (st : WPNavState) :
    advDesiredMid env dt st ≤ st.trackDesired := by
  unfold advDesiredMid
  split_ifs with h1 h2
  · exact le_refl _
  · exact not_lt.1 h2.2
  · exact le_refl _

/-- The carrot update of `advance_wp_target_along_track` is monotone and
stays within `[0, _track_length]` when the limited speed is
non-negative. -/
lemma advNewTrackDesired_bounds (env : WPEnv) (dt : ℝ) (st : WPNavState)
    (hd0 : 0 ≤ st.trackDesired) (hd1 : st.trackDesired ≤ st.trackLength)
    (hlim : 0 ≤ advNewLimitedSpeed env dt st) (hdt : 0 ≤ dt) :
    st.trackDesired ≤ advNewTrackDesired env dt st ∧
      advNewTrackDesired env dt st ≤ st.trackLength := by
  have hlen : 0 ≤ st.trackLength := hd0.trans hd1
  have hmid := advDesiredMid_le env dt st
  unfold advNewTrackDesired
  constructor
  · refine le_trans ?_ (le_max_right _ _)
    exact constrainFloat_ge_of_le _ _ _ _ hd0 hd1 (by nlinarith)
  · exact max_le (hmid.trans hd1) (constrainFloat_mem _ _ _ hlen).2

lemma advance_limitedSpeed (env : WPEnv) (dt : ℝ) (st : WPNavState) :
    (advanceWpTargetAlongTrack env dt st).limitedSpeedXyCms =
      advNewLimitedSpeed env dt st := rfl

lemma advance_trackDesired (env : WPEnv) (dt : ℝ) (st : WPNavState) :
    (advanceWpTargetAlongTrack env dt st).trackDesired =
      advNewTrackDesired env dt st := rfl

/-- `advance_wp_target_along_track` writes only the limited speed, the
carrot, the position target and the reached flag; every other field is
untouched. -/
lemma advance_preserved (env : WPEnv) (dt : ℝ) (st : WPNavState) :
    (advanceWpTargetAlongTrack env dt st).trackSpeed = st.trackSpeed ∧
    (advanceWpTargetAlongTrack env dt st).trackAccel = st.trackAccel ∧
    (advanceWpTargetAlongTrack env dt st).trackLength = st.trackLength ∧
    (advanceWpTargetAlongTrack env dt st).posDeltaUnit = st.posDeltaUnit ∧
    (advanceWpTargetAlongTrack env dt st).origin = st.origin ∧
    (advanceWpTargetAlongTrack env dt st).destination = st.destination ∧
    (advanceWpTargetAlongTrack env dt st).fastWaypoint = st.fastWaypoint ∧
    (advanceWpTargetAlongTrack env dt st).wpRadiusCm = st.wpRadiusCm ∧
    (advanceWpTargetAlongTrack env dt st).trackLeashLength = st.trackLeashLength ∧
    (advanceWpTargetAlongTrack env dt st).wpSpeedCms = st.wpSpeedCms :=
  ⟨rfl, rfl, rfl, rfl, rfl, rfl, rfl, rfl, rfl, rfl⟩

/-- One step of the straight-segment state machine preserves the
invariant and never lowers the carrot. -/
lemma advance_inv (env : WPEnv) (dt : ℝ) (st : WPNavState)
    (h : WPInv st) (hdt : 0 ≤ dt) :
    WPInv (advanceWpTargetAlongTrack env dt st) ∧
      st.trackDesired ≤ (advanceWpTargetAlongTrack env dt st).trackDesired := by
  obtain ⟨h1, h2, h3, h4, h5⟩ := h
  obtain ⟨l1, l2⟩ := advNewLimitedSpeed_bounds env dt st h1 h4 h5 hdt
  obtain ⟨d1, d2⟩ := advNewTrackDesired_bounds env dt st h2 h3 l1 hdt
  exact ⟨⟨l1, h2.trans d1, d2, h4, h5⟩, d1⟩

lemma advanceList_cons (p : WPEnv × ℝ) (steps : List (WPEnv × ℝ)) (st : WPNavState) :
    advanceList (p :: steps) st =
      advanceList steps (advanceWpTargetAlongTrack p.1 p.2 st) := rfl

/-- The invariant holds after any sequence of advances with
non-negative time steps. -/
lemma advanceList_inv (steps : List (WPEnv × ℝ)) (st : WPNavState)
    (h : WPInv st) (hs : ∀ p ∈ steps, 0 ≤ p.2) :
    WPInv (advanceList steps st) := by
  induction steps generalizing st with
  | nil => exact h
  | cons a l ih =>
      rw [advanceList_cons]
      exact ih _ (advance_inv a.1 a.2 st h (hs a (List.mem_cons_self a l))).1
        (fun p hp => hs p (List.mem_cons_of_mem a hp))

/-- A sequence of advances touches none of the preserved fields. -/
lemma advanceList_preserved (steps : List (WPEnv × ℝ)) (st : WPNavState) :
    (advanceList steps st).trackSpeed = st.trackSpeed ∧
    (advanceList steps st).trackLength = st.trackLength ∧
    (advanceList steps st).destination = st.destination ∧
    (advanceList steps st).fastWaypoint = st.fastWaypoint ∧
    (advanceList steps st).wpRadiusCm = st.wpRadiusCm := by
  induction steps generalizing st with
  | nil => exact ⟨rfl, rfl, rfl, rfl, rfl⟩
  | cons a l ih =>
      rw [advanceList_cons]
      exact ih (advanceWpTargetAlongTrack a.1 a.2 st)

/-- `calculate_wp_leash_length` yields a non-negative track acceleration
and track speed when the stored parameters are non-negative. -/
lemma calcLeash_nonneg (c : Consts) (st : WPNavState)
    (ha : 0 ≤ st.wpAccelCms) (hs : 0 ≤ st.wpSpeedCms)
    (hu : 0 ≤ st.wpSpeedUpCms) (hd : 0 ≤ st.wpSpeedDownCms)
    (hm : 0 ≤ c.wpnavAltHoldAccelMax) :
    0 ≤ calcTrackAccel c st ∧ 0 ≤ calcTrackSpeed st := by
  have hxy : 0 ≤ posDeltaUnitXy st := pythagorous2_nonneg _ _
  have hz : (0 : ℝ) ≤ |st.posDeltaUnit.z| := abs_nonneg _
  constructor
  · unfold calcTrackAccel
    split_ifs <;>
      first
        | exact le_refl 0
        | exact div_nonneg ha hxy
        | exact div_nonneg hm hz
        | exact le_min (div_nonneg hm hz) (div_nonneg ha hxy)
  · unfold calcTrackSpeed
    split_ifs <;>
      first
        | exact le_refl 0
        | exact div_nonneg hs hxy
        | exact div_nonneg hu hz
        | exact div_nonneg hd hz
        | exact le_min (div_nonneg hu hz) (div_nonneg hs hxy)
        | exact le_min (div_nonneg hd hz) (div_nonneg hs hxy)

lemma pythagorous2_mul_right (x y k : ℝ) (hk : 0 ≤ k) :
    pythagorous2 (x * k) (y * k) = pythagorous2 x y * k := by
  unfold pythagorous2
  rw [show x * k * (x * k) + y * k * (y * k) = (x * x + y * y) * k ^ 2 by ring,
    Real.sqrt_mul (add_nonneg (mul_self_nonneg x) (mul_self_nonneg y)),
    Real.sqrt_sq hk]

/-- A nonzero direction vector has a nonzero vertical component or a
nonzero horizontal magnitude. -/
lemma vec3_nonzero_mag (u : Vec3) (hu : u ≠ Vec3.zero) :
    ¬(|u.z| = 0 ∧ pythagorous2 u.x u.y = 0) := by
  rintro ⟨h1, h2⟩
  apply hu
  have hz : u.z = 0 := abs_eq_zero.1 h1
  unfold pythagorous2 at h2
  have hle : u.x * u.x + u.y * u.y ≤ 0 := Real.sqrt_eq_zero'.1 h2
  have hx : u.x = 0 := by nlinarith [mul_self_nonneg u.x, mul_self_nonneg u.y]
  have hy : u.y = 0 := by nlinarith [mul_self_nonneg u.x, mul_self_nonneg u.y]
  unfold Vec3.zero
  ext <;> simp [hx, hy, hz]

lemma calcTrackAccel_smul (c : Consts) (st : WPNavState) (u : Vec3) (k : ℝ)
    (hk : 0 < k) (hu : u ≠ Vec3.zero) :
    calcTrackAccel c { st with posDeltaUnit := u.smul k } =
      calcTrackAccel c { st with posDeltaUnit := u } / k := by
  have hk' : k ≠ 0 := hk.ne'
  have hnb := vec3_nonzero_mag u hu
  have habs : |u.z * k| = |u.z| * k := by rw [abs_mul, abs_of_pos hk]
  have hpy := pythagorous2_mul_right u.x u.y k hk.le
  have e1 : (|u.z| * k = 0) ↔ (|u.z| = 0) := by
    constructor
    · intro h
      rcases mul_eq_zero.1 h with h | h
      · exact h
      · exact absurd h hk'
    · intro h
      rw [h, zero_mul]
  have e2 : (pythagorous2 u.x u.y * k = 0) ↔ (pythagorous2 u.x u.y = 0) := by
    constructor
    · intro h
      rcases mul_eq_zero.1 h with h | h
      · exact h
      · exact absurd h hk'
    · intro h
      rw [h, zero_mul]
  have e3 : (u.z * k = 0) ↔ (u.z = 0) := by
    constructor
    · intro h
      rcases mul_eq_zero.1 h with h | h
      · exact h
      · exact absurd h hk'
    · intro h
      rw [h, zero_mul]
  show (if |u.z * k| = 0 ∧ pythagorous2 (u.x * k) (u.y * k) = 0 then 0
    else if u.z * k = 0 then st.wpAccelCms / pythagorous2 (u.x * k) (u.y * k)
    else if pythagorous2 (u.x * k) (u.y * k) = 0 then c.wpnavAltHoldAccelMax / |u.z * k|
    else min (c.wpnavAltHoldAccelMax / |u.z * k|)
      (st.wpAccelCms / pythagorous2 (u.x * k) (u.y * k))) =
    (if |u.z| = 0 ∧ pythagorous2 u.x u.y = 0 then 0
    else if u.z = 0 then st.wpAccelCms / pythagorous2 u.x u.y
    else if pythagorous2 u.x u.y = 0 then c.wpnavAltHoldAccelMax / |u.z|
    else min (c.wpnavAltHoldAccelMax / |u.z|)
      (st.wpAccelCms / pythagorous2 u.x u.y)) / k
  rw [habs, hpy]
  simp only [e1, e2, e3]
  by_cases hz : u.z = 0
  · have hA : ¬pythagorous2 u.x u.y = 0 := fun h => hnb ⟨by rw [hz]; exact abs_zero, h⟩
    have hcr : ¬(|u.z| = 0 ∧ pythagorous2 u.x u.y = 0) := fun hc => hA hc.2
    rw [if_neg hcr, if_neg hcr, if_pos hz, if_pos hz, div_div]
  · have h1 : ¬(|u.z| = 0 ∧ pythagorous2 u.x u.y = 0) :=
      fun hc => hz (abs_eq_zero.1 hc.1)
    rw [if_neg h1, if_neg h1, if_neg hz, if_neg hz]
    by_cases hA : pythagorous2 u.x u.y = 0
    · rw [if_pos hA, if_pos hA, div_div]
    · rw [if_neg hA, if_neg hA, ← min_div_div_right hk.le, div_div, div_div]

lemma calcTrackSpeed_smul (st : WPNavState) (u : Vec3) (k : ℝ)
    (hk : 0 < k) (hu : u ≠ Vec3.zero) :
    calcTrackSpeed { st with posDeltaUnit := u.smul k } =
      calcTrackSpeed { st with posDeltaUnit := u } / k := by
  have hk' : k ≠ 0 := hk.ne'
  have hnb := vec3_nonzero_mag u hu
  have habs : |u.z * k| = |u.z| * k := by rw [abs_mul, abs_of_pos hk]
  have hpy := pythagorous2_mul_right u.x u.y k hk.le
  have e1 : (|u.z| * k = 0) ↔ (|u.z| = 0) := by
    constructor
    · intro h
      rcases mul_eq_zero.1 h with h | h
      · exact h
      · exact absurd h hk'
    · intro h
      rw [h, zero_mul]
  have e2 : (pythagorous2 u.x u.y * k = 0) ↔ (pythagorous2 u.x u.y = 0) := by
    constructor
    · intro h
      rcases mul_eq_zero.1 h with h | h
      · exact h
      · exact absurd h hk'
    · intro h
      rw [h, zero_mul]
  have e3 : (u.z * k = 0) ↔ (u.z = 0) := by
    constructor
    · intro h
      rcases mul_eq_zero.1 h with h | h
      · exact h
      · exact absurd h hk'
    · intro h
      rw [h, zero_mul]
  have e4 : (0 ≤ u.z * k) ↔ (0 ≤ u.z) := mul_nonneg_iff_of_pos_right hk
  show (if |u.z * k| = 0 ∧ pythagorous2 (u.x * k) (u.y * k) = 0 then 0
    else if u.z * k = 0 then st.wpSpeedCms / pythagorous2 (u.x * k) (u.y * k)
    else if pythagorous2 (u.x * k) (u.y * k) = 0 then
      (if 0 ≤ u.z * k then st.wpSpeedUpCms else st.wpSpeedDownCms) / |u.z * k|
    else min ((if 0 ≤ u.z * k then st.wpSpeedUpCms else st.wpSpeedDownCms) / |u.z * k|)
      (st.wpSpeedCms / pythagorous2 (u.x * k) (u.y * k))) =
    (if |u.z| = 0 ∧ pythagorous2 u.x u.y = 0 then 0
    else if u.z = 0 then st.wpSpeedCms / pythagorous2 u.x u.y
    else if pythagorous2 u.x u.y = 0 then
      (if 0 ≤ u.z then st.wpSpeedUpCms else st.wpSpeedDownCms) / |u.z|
    else min ((if 0 ≤ u.z then st.wpSpeedUpCms else st.wpSpeedDownCms) / |u.z|)
      (st.wpSpeedCms / pythagorous2 u.x u.y)) / k
  rw [habs, hpy]
  simp only [e1, e2, e3, e4]
  by_cases hz : u.z = 0
  · have hA : ¬pythagorous2 u.x u.y = 0 := fun h => hnb ⟨by rw [hz]; exact abs_zero, h⟩
    have hcr : ¬(|u.z| = 0 ∧ pythagorous2 u.x u.y = 0) := fun hc => hA hc.2
    rw [if_neg hcr, if_neg hcr, if_pos hz, if_pos hz, div_div]
  · have h1 : ¬(|u.z| = 0 ∧ pythagorous2 u.x u.y = 0) :=
      fun hc => hz (abs_eq_zero.1 hc.1)
    rw [if_neg h1, if_neg h1, if_neg hz, if_neg hz]
    by_cases hA : pythagorous2 u.x u.y = 0
    · rw [if_pos hA, if_pos hA, div_div]
    · rw [if_neg hA, if_neg hA, ← min_div_div_right hk.le, div_div, div_div]

lemma calcTrackLeash_smul (c : Consts) (env : WPEnv) (st : WPNavState) (u : Vec3)
    (k : ℝ) (hk : 0 < k) (hu : u ≠ Vec3.zero) :
    calcTrackLeash c env { st with posDeltaUnit := u.smul k } =
      calcTrackLeash c env { st with posDeltaUnit := u } / k := by
  have hk' : k ≠ 0 := hk.ne'
  have hnb := vec3_nonzero_mag u hu
  have habs : |u.z * k| = |u.z| * k := by rw [abs_mul, abs_of_pos hk]
  have hpy := pythagorous2_mul_right u.x u.y k hk.le
  have e1 : (|u.z| * k = 0) ↔ (|u.z| = 0) := by
    constructor
    · intro h
      rcases mul_eq_zero.1 h with h | h
      · exact h
      · exact absurd h hk'
    · intro h
      rw [h, zero_mul]
  have e2 : (pythagorous2 u.x u.y * k = 0) ↔ (pythagorous2 u.x u.y = 0) := by
    constructor
    · intro h
      rcases mul_eq_zero.1 h with h | h
      · exact h
      · exact absurd h hk'
    · intro h
      rw [h, zero_mul]
  have e3 : (u.z * k = 0) ↔ (u.z = 0) := by
    constructor
    · intro h
      rcases mul_eq_zero.1 h with h | h
      · exact h
      · exact absurd h hk'
    · intro h
      rw [h, zero_mul]
  have e4 : (0 ≤ u.z * k) ↔ (0 ≤ u.z) := mul_nonneg_iff_of_pos_right hk
  show (if |u.z * k| = 0 ∧ pythagorous2 (u.x * k) (u.y * k) = 0 then c.wpnavLeashLengthMin
    else if u.z * k = 0 then env.leashXy / pythagorous2 (u.x * k) (u.y * k)
    else if pythagorous2 (u.x * k) (u.y * k) = 0 then
      (if 0 ≤ u.z * k then env.leashUpZ else env.leashDownZ) / |u.z * k|
    else min ((if 0 ≤ u.z * k then env.leashUpZ else env.leashDownZ) / |u.z * k|)
      (env.leashXy / pythagorous2 (u.x * k) (u.y * k))) =
    (if |u.z| = 0 ∧ pythagorous2 u.x u.y = 0 then c.wpnavLeashLengthMin
    else if u.z = 0 then env.leashXy / pythagorous2 u.x u.y
    else if pythagorous2 u.x u.y = 0 then
      (if 0 ≤ u.z then env.leashUpZ else env.leashDownZ) / |u.z|
    else min ((if 0 ≤ u.z then env.leashUpZ else env.leashDownZ) / |u.z|)
      (env.leashXy / pythagorous2 u.x u.y)) / k
  rw [habs, hpy]
  simp only [e1, e2, e3, e4]
  by_cases hz : u.z = 0
  · have hA : ¬pythagorous2 u.x u.y = 0 := fun h => hnb ⟨by rw [hz]; exact abs_zero, h⟩
    have hcr : ¬(|u.z| = 0 ∧ pythagorous2 u.x u.y = 0) := fun hc => hA hc.2
    rw [if_neg hcr, if_neg hcr, if_pos hz, if_pos hz, div_div]
  · have h1 : ¬(|u.z| = 0 ∧ pythagorous2 u.x u.y = 0) :=
      fun hc => hz (abs_eq_zero.1 hc.1)
    rw [if_neg h1, if_neg h1, if_neg hz, if_neg hz]
    by_cases hA : pythagorous2 u.x u.y = 0
    · rw [if_pos hA, if_pos hA, div_div]
    · rw [if_neg hA, if_neg hA, ← min_div_div_right hk.le, div_div, div_div]

/-- `set_wp_origin_and_destination` establishes the invariant, zeroes
the carrot and clamps the initial limited speed to the stored waypoint
speed. -/
lemma setWp_inv (c : Consts) (env : WPEnv) (o d : Vec3) (st : WPNavState)
    (hs : 0 ≤ st.wpSpeedCms) (hu : 0 ≤ st.wpSpeedUpCms) (hd : 0 ≤ st.wpSpeedDownCms)
    (hca : 0 < c.wpnavAcceleration) (hm : 0 ≤ c.wpnavAltHoldAccelMax) :
    WPInv (setWpOriginAndDestination c env o d st) ∧
    (setWpOriginAndDestination c env o d st).trackDesired = 0 ∧
    (setWpOriginAndDestination c env o d st).limitedSpeedXyCms ≤ st.wpSpeedCms := by
  have ha1 : 0 < (setWpParamState c o d st).wpAccelCms := by
    show 0 < (if st.wpAccelCms ≤ 0 then c.wpnavAcceleration else st.wpAccelCms)
    split_ifs with h
    · exact hca
    · exact not_le.1 h
  obtain ⟨hA, hS⟩ := calcLeash_nonneg c (setWpParamState c o d st) ha1.le hs hu hd hm
  refine ⟨⟨?_, le_refl 0, ?_, hA, hS⟩, rfl, ?_⟩
  · exact (constrainFloat_mem _ 0 st.wpSpeedCms hs).1
  · exact Real.sqrt_nonneg _
  · exact (constrainFloat_mem _ 0 st.wpSpeedCms hs).2

lemma advance_reached_eq (env : WPEnv) (dt : ℝ) (st : WPNavState) :
    (advanceWpTargetAlongTrack env dt st).reachedDestination =
      (if ¬st.reachedDestination then
        if st.trackLength ≤ advNewTrackDesired env dt st then
          if st.fastWaypoint then true
          else if (env.currPos.sub st.destination).length ≤ st.wpRadiusCm then true
          else st.reachedDestination
        else st.reachedDestination
      else st.reachedDestination) := rfl

/-- On a zero-length track the carrot stays at zero through any
advance. -/
lemma advance_desired_zero (env : WPEnv) (dt : ℝ) (st : WPNavState)
    (hlen : st.trackLength = 0) (hdes : st.trackDesired = 0) :
    (advanceWpTargetAlongTrack env dt st).trackDesired = 0 := by
  rw [advance_trackDesired]
  unfold advNewTrackDesired
  have hc : constrainFloat (st.trackDesired + advNewLimitedSpeed env dt st * dt) 0
      st.trackLength = 0 := by
    unfold constrainFloat
    rw [hlen]
    split_ifs <;> linarith
  rw [hc]
  exact max_eq_right (hdes ▸ advDesiredMid_le env dt st)

lemma advanceList_desired_zero (steps : List (WPEnv × ℝ)) (st : WPNavState)
    (hlen : st.trackLength = 0) (hdes : st.trackDesired = 0) :
    (advanceList steps st).trackDesired = 0 := by
  induction steps generalizing st with
  | nil => exact hdes
  | cons a l ih =>
      rw [advanceList_cons]
      exact ih _ ((advance_preserved a.1 a.2 st).2.2.1.trans hlen)
        (advance_desired_zero a.1 a.2 st hlen hdes)

/-- On a zero-length track a slow waypoint is marked reached by any
advance call made while the vehicle is within the waypoint radius of
the destination. -/
lemma advance_reached_true (env : WPEnv) (dt : ℝ) (st : WPNavState)
    (hlen : st.trackLength = 0) (hdes : st.trackDesired = 0)
    (hfast : st.fastWaypoint = false)
    (hdist : (env.currPos.sub st.destination).length ≤ st.wpRadiusCm) :
    (advanceWpTargetAlongTrack env dt st).reachedDestination = true := by
  rw [advance_reached_eq, hfast]
  have hnd : advNewTrackDesired env dt st = 0 := by
    have h := advance_desired_zero env dt st hlen hdes
    rw [advance_trackDesired] at h
    exact h
  cases hr : st.reachedDestination with
  | true => simp [hr]
  | false => simp [hr, hlen, hnd, hdist]

/-- The final cap of `calc_loiter_desired_velocity`: scaling a vector of
magnitude above `s` back onto the circle of radius `s` leaves the
magnitude at most `s`. -/
lemma loiter_cap_core (s vx vy : ℝ) (hs : 0 ≤ s) :
    pythagorous2
      (if s < pythagorous2 vx vy ∧ 0 < pythagorous2 vx vy
        then s * vx / pythagorous2 vx vy else vx)
      (if s < pythagorous2 vx vy ∧ 0 < pythagorous2 vx vy
        then s * vy / pythagorous2 vx vy else vy) ≤ s := by
  by_cases h : s < pythagorous2 vx vy ∧ 0 < pythagorous2 vx vy
  · rw [if_pos h, if_pos h]
    have ht : 0 < Real.sqrt (vx * vx + vy * vy) := h.2
    have ht2 : Real.sqrt (vx * vx + vy * vy) ^ 2 = vx * vx + vy * vy :=
      Real.sq_sqrt (add_nonneg (mul_self_nonneg vx) (mul_self_nonneg vy))
    have harg : s * vx / Real.sqrt (vx * vx + vy * vy) *
          (s * vx / Real.sqrt (vx * vx + vy * vy)) +
        s * vy / Real.sqrt (vx * vx + vy * vy) *
          (s * vy / Real.sqrt (vx * vx + vy * vy)) = s ^ 2 := by
      field_simp
      linear_combination (-(s ^ 2)) * ht2
    unfold pythagorous2
    rw [harg, Real.sqrt_sq hs]
  · rw [if_neg h, if_neg h]
    rcases not_and_or.1 h with h1 | h2
    · exact not_lt.1 h1
    · have h0 : pythagorous2 vx vy = 0 :=
        le_antisymm (not_lt.1 h2) (pythagorous2_nonneg vx vy)
      rw [h0]
      exact hs

/-! ## Claim theorems -/

/-- C6: `update_spline_solution` computes exactly the spec's Hermite
coefficients `H0 = p0`, `H1 = v0`, `H2 = -3p0 - 2v0 + 3p1 - v1`,
`H3 = 2p0 + v0 - 2p1 + v1`, and for every `s` the velocity returned by
`calc_spline_pos_vel` equals the formal derivative
`H1 + 2*H2*s + 3*H3*s^2` of the returned position polynomial. -/
theorem spline_solution_matches_hermite_reference (p0 p1 v0 v1 : Vec3) (s : ℝ) :
    updateSplineSolution p0 p1 v0 v1 = hermiteSpecCoeffs p0 p1 v0 v1 ∧
    (calcSplinePosVel (updateSplineSolution p0 p1 v0 v1) s).2 =
      hermiteSpecDeriv (updateSplineSolution p0 p1 v0 v1) s := by
  constructor
  · ext <;>
      simp only [updateSplineSolution, hermiteSpecCoeffs, Vec3.add, Vec3.sub,
        Vec3.neg, Vec3.smul] <;>
      ring
  · ext <;>
      simp only [calcSplinePosVel, hermiteSpecDeriv, updateSplineSolution,
        Vec3.add, Vec3.sub, Vec3.neg, Vec3.smul] <;>
      ring

/-- C9: calling `calc_loiter_desired_velocity` with a negative `nav_dt`
returns immediately and leaves every piece of the touched state
unchanged. -/
theorem calc_loiter_negative_dt_noop (c : Consts) (navDt cosYaw sinYaw : ℝ)
    (st : LoiterState) (h : navDt < 0) :
    calcLoiterDesiredVelocity c navDt cosYaw sinYaw st = st := by
  unfold calcLoiterDesiredVelocity
  rw [if_pos h]

theorem calc_loiter_negative_dt_noop_witness :
    (-1 : ℝ) < 0 ∧
      calcLoiterDesiredVelocity sampleConsts (-1) 1 0 sampleLoiterState =
        sampleLoiterState :=
  ⟨by norm_num,
    calc_loiter_negative_dt_noop sampleConsts (-1) 1 0 sampleLoiterState (by norm_num)⟩

/-- C10: `set_horizontal_velocity` range-checks the previously stored
waypoint speed, not its argument: when the stored `_wp_speed_cms` is at
least the waypoint-speed minimum, the stored speed and the position
controller's horizontal speed are set to the argument unconditionally
(zero and negative values included); when the stored speed is below the
minimum, the call leaves all state unchanged. -/
theorem set_horizontal_velocity_checks_stored_speed (c : Consts) (v : ℝ)
    (st : WPNavState) :
    (c.wpnavWpSpeedMin ≤ st.wpSpeedCms →
      setHorizontalVelocity c v st = { st with wpSpeedCms := v, pcSpeedXy := v }) ∧
    (st.wpSpeedCms < c.wpnavWpSpeedMin → setHorizontalVelocity c v st = st) := by
  constructor
  · intro h
    unfold setHorizontalVelocity
    rw [if_pos h]
  · intro h
    unfold setHorizontalVelocity
    rw [if_neg (not_le.2 h)]

theorem set_horizontal_velocity_checks_stored_speed_witness :
    (sampleConsts.wpnavWpSpeedMin ≤ sampleWpState.wpSpeedCms ∧
      setHorizontalVelocity sampleConsts (-7) sampleWpState =
        { sampleWpState with wpSpeedCms := -7, pcSpeedXy := -7 }) ∧
    ({ sampleWpState with wpSpeedCms := 50 }.wpSpeedCms <
        sampleConsts.wpnavWpSpeedMin ∧
      setHorizontalVelocity sampleConsts 400 { sampleWpState with wpSpeedCms := 50 } =
        { sampleWpState with wpSpeedCms := 50 }) := by
  have h1 : sampleConsts.wpnavWpSpeedMin ≤ sampleWpState.wpSpeedCms := by
    simp only [sampleConsts, sampleWpState]; norm_num
  have h2 : ({ sampleWpState with wpSpeedCms := 50 } : WPNavState).wpSpeedCms <
      sampleConsts.wpnavWpSpeedMin := by
    simp only [sampleConsts, sampleWpState]; norm_num
  exact ⟨⟨h1, (set_horizontal_velocity_checks_stored_speed sampleConsts (-7)
      sampleWpState).1 h1⟩,
    ⟨h2, (set_horizontal_velocity_checks_stored_speed sampleConsts 400
      { sampleWpState with wpSpeedCms := 50 }).2 h2⟩⟩

/-- C1: for a straight segment created by
`set_wp_origin_and_destination` (with parameters in the spec's
admissible ranges) and any sequence of `advance_wp_target_along_track`
calls with `dt >= 0` under arbitrary inertial and position-controller
read-outs, the carrot `_track_desired` never decreases from one call to
the next and always lies in `[0, _track_length]`. -/
theorem track_desired_monotone_and_in_range
    (c : Consts) (env0 : WPEnv) (o d : Vec3) (st : WPNavState)
    (steps : List (WPEnv × ℝ)) (env1 : WPEnv) (dt1 : ℝ)
    (hs : 0 ≤ st.wpSpeedCms) (hu : 0 ≤ st.wpSpeedUpCms)
    (hd : 0 ≤ st.wpSpeedDownCms) (hca : 0 < c.wpnavAcceleration)
    (hm : 0 ≤ c.wpnavAltHoldAccelMax)
    (hsteps : ∀ p ∈ steps, 0 ≤ p.2) (hdt1 : 0 ≤ dt1) :
    0 ≤ (advanceList steps (setWpOriginAndDestination c env0 o d st)).trackDesired ∧
    (advanceList steps (setWpOriginAndDestination c env0 o d st)).trackDesired ≤
      (advanceList steps (setWpOriginAndDestination c env0 o d st)).trackLength ∧
    (advanceList steps (setWpOriginAndDestination c env0 o d st)).trackDesired ≤
      (advanceWpTargetAlongTrack env1 dt1
        (advanceList steps (setWpOriginAndDestination c env0 o d st))).trackDesired ∧
    0 ≤ (advanceWpTargetAlongTrack env1 dt1
        (advanceList steps (setWpOriginAndDestination c env0 o d st))).trackDesired ∧
    (advanceWpTargetAlongTrack env1 dt1
        (advanceList steps (setWpOriginAndDestination c env0 o d st))).trackDesired ≤
      (advanceWpTargetAlongTrack env1 dt1
        (advanceList steps (setWpOriginAndDestination c env0 o d st))).trackLength := by
  have h0 := (setWp_inv c env0 o d st hs hu hd hca hm).1
  have hL := advanceList_inv steps _ h0 hsteps
  have hstep := advance_inv env1 dt1 _ hL hdt1
  exact ⟨hL.2.1, hL.2.2.1, hstep.2, hstep.1.2.1, hstep.1.2.2.1⟩

theorem track_desired_monotone_and_in_range_witness :
    ((0 : ℝ) ≤ sampleWpState.wpSpeedCms ∧ (0 : ℝ) ≤ sampleWpState.wpSpeedUpCms ∧
      (0 : ℝ) ≤ sampleWpState.wpSpeedDownCms ∧
      (0 : ℝ) < sampleConsts.wpnavAcceleration ∧
      (0 : ℝ) ≤ sampleConsts.wpnavAltHoldAccelMax ∧
      (∀ p ∈ ([] : List (WPEnv × ℝ)), (0 : ℝ) ≤ p.2) ∧ (0 : ℝ) ≤ 1 / 10) ∧
    (0 ≤ (advanceList [] (setWpOriginAndDestination sampleConsts sampleEnv
        ⟨0, 0, 0⟩ ⟨0, 0, 100⟩ sampleWpState)).trackDesired ∧
      (advanceList [] (setWpOriginAndDestination sampleConsts sampleEnv
        ⟨0, 0, 0⟩ ⟨0, 0, 100⟩ sampleWpState)).trackDesired ≤
        (advanceList [] (setWpOriginAndDestination sampleConsts sampleEnv
          ⟨0, 0, 0⟩ ⟨0, 0, 100⟩ sampleWpState)).trackLength ∧
      (advanceList [] (setWpOriginAndDestination sampleConsts sampleEnv
        ⟨0, 0, 0⟩ ⟨0, 0, 100⟩ sampleWpState)).trackDesired ≤
        (advanceWpTargetAlongTrack sampleEnv (1 / 10)
          (advanceList [] (setWpOriginAndDestination sampleConsts sampleEnv
            ⟨0, 0, 0⟩ ⟨0, 0, 100⟩ sampleWpState))).trackDesired ∧
      0 ≤ (advanceWpTargetAlongTrack sampleEnv (1 / 10)
          (advanceList [] (setWpOriginAndDestination sampleConsts sampleEnv
            ⟨0, 0, 0⟩ ⟨0, 0, 100⟩ sampleWpState))).trackDesired ∧
      (advanceWpTargetAlongTrack sampleEnv (1 / 10)
          (advanceList [] (setWpOriginAndDestination sampleConsts sampleEnv
            ⟨0, 0, 0⟩ ⟨0, 0, 100⟩ sampleWpState))).trackDesired ≤
        (advanceWpTargetAlongTrack sampleEnv (1 / 10)
          (advanceList [] (setWpOriginAndDestination sampleConsts sampleEnv
            ⟨0, 0, 0⟩ ⟨0, 0, 100⟩ sampleWpState))).trackLength) :=
  ⟨⟨by simp only [sampleWpState]; norm_num, by simp only [sampleWpState]; norm_num,
    by simp only [sampleWpState]; norm_num, by simp only [sampleConsts]; norm_num,
    by simp only [sampleConsts]; norm_num, by simp, by norm_num⟩,
    track_desired_monotone_and_in_range sampleConsts sampleEnv
      ⟨0, 0, 0⟩ ⟨0, 0, 100⟩ sampleWpState [] sampleEnv (1 / 10)
      (by simp only [sampleWpState]; norm_num) (by simp only [sampleWpState]; norm_num)
      (by simp only [sampleWpState]; norm_num) (by simp only [sampleConsts]; norm_num)
      (by simp only [sampleConsts]; norm_num) (by simp) (by norm_num)⟩

/-- C2 (amended): immediately after `set_wp_origin_and_destination` the
limited speed satisfies `0 ≤ _limited_speed_xy_cms ≤ _wp_speed_cms`
(the initial clamp is to the `WP_SPEED` parameter, not to
`_track_speed`); after every subsequent call to
`advance_wp_target_along_track` with `dt >= 0` it satisfies
`0 ≤ _limited_speed_xy_cms ≤ _track_speed`. -/
theorem limited_speed_bounds_amended
    (c : Consts) (env0 : WPEnv) (o d : Vec3) (st : WPNavState)
    (steps : List (WPEnv × ℝ)) (env1 : WPEnv) (dt1 : ℝ)
    (hs : 0 ≤ st.wpSpeedCms) (hu : 0 ≤ st.wpSpeedUpCms)
    (hd : 0 ≤ st.wpSpeedDownCms) (hca : 0 < c.wpnavAcceleration)
    (hm : 0 ≤ c.wpnavAltHoldAccelMax)
    (hsteps : ∀ p ∈ steps, 0 ≤ p.2) (hdt1 : 0 ≤ dt1) :
    (0 ≤ (setWpOriginAndDestination c env0 o d st).limitedSpeedXyCms ∧
      (setWpOriginAndDestination c env0 o d st).limitedSpeedXyCms ≤
        (setWpOriginAndDestination c env0 o d st).wpSpeedCms) ∧
    (0 ≤ (advanceWpTargetAlongTrack env1 dt1
        (advanceList steps (setWpOriginAndDestination c env0 o d st))).limitedSpeedXyCms ∧
      (advanceWpTargetAlongTrack env1 dt1
        (advanceList steps (setWpOriginAndDestination c env0 o d st))).limitedSpeedXyCms ≤
        (advanceWpTargetAlongTrack env1 dt1
          (advanceList steps (setWpOriginAndDestination c env0 o d st))).trackSpeed) := by
  obtain ⟨h0, -, hclamp⟩ := setWp_inv c env0 o d st hs hu hd hca hm
  have hL := advanceList_inv steps _ h0 hsteps
  obtain ⟨b0, b1⟩ := advNewLimitedSpeed_bounds env1 dt1 _ hL.1 hL.2.2.2.1 hL.2.2.2.2 hdt1
  exact ⟨⟨h0.1, hclamp⟩, ⟨b0, b1⟩⟩

theorem limited_speed_bounds_amended_witness :
    ((0 : ℝ) ≤ sampleWpState.wpSpeedCms ∧ (0 : ℝ) < sampleConsts.wpnavAcceleration ∧
      (0 : ℝ) ≤ 1 / 10) ∧
    ((0 ≤ (setWpOriginAndDestination sampleConsts sampleEnv
        ⟨0, 0, 0⟩ ⟨0, 0, 100⟩ sampleWpState).limitedSpeedXyCms ∧
      (setWpOriginAndDestination sampleConsts sampleEnv
        ⟨0, 0, 0⟩ ⟨0, 0, 100⟩ sampleWpState).limitedSpeedXyCms ≤
        (setWpOriginAndDestination sampleConsts sampleEnv
          ⟨0, 0, 0⟩ ⟨0, 0, 100⟩ sampleWpState).wpSpeedCms) ∧
    (0 ≤ (advanceWpTargetAlongTrack sampleEnv (1 / 10)
        (advanceList [] (setWpOriginAndDestination sampleConsts sampleEnv
          ⟨0, 0, 0⟩ ⟨0, 0, 100⟩ sampleWpState))).limitedSpeedXyCms ∧
      (advanceWpTargetAlongTrack sampleEnv (1 / 10)
        (advanceList [] (setWpOriginAndDestination sampleConsts sampleEnv
          ⟨0, 0, 0⟩ ⟨0, 0, 100⟩ sampleWpState))).limitedSpeedXyCms ≤
        (advanceWpTargetAlongTrack sampleEnv (1 / 10)
          (advanceList [] (setWpOriginAndDestination sampleConsts sampleEnv
            ⟨0, 0, 0⟩ ⟨0, 0, 100⟩ sampleWpState))).trackSpeed)) :=
  ⟨⟨by simp only [sampleWpState]; norm_num, by simp only [sampleConsts]; norm_num,
    by norm_num⟩,
    limited_speed_bounds_amended sampleConsts sampleEnv ⟨0, 0, 0⟩ ⟨0, 0, 100⟩
      sampleWpState [] sampleEnv (1 / 10)
      (by simp only [sampleWpState]; norm_num) (by simp only [sampleWpState]; norm_num)
      (by simp only [sampleWpState]; norm_num) (by simp only [sampleConsts]; norm_num)
      (by simp only [sampleConsts]; norm_num) (by simp) (by norm_num)⟩

/-- C2 counterexample: on the pure-climb segment from the origin to
`(0,0,100)` with the default parameters (`WP_SPEED = 500`,
`WP_SPEED_UP = 250`) and the vehicle climbing at 400 cm/s,
`set_wp_origin_and_destination` leaves
`_limited_speed_xy_cms = 400 > 250 = _track_speed`, so the claimed
bound fails immediately after segment creation. -/
theorem limited_speed_after_set_counterexample :
    ¬((setWpOriginAndDestination sampleConsts sampleEnv ⟨0, 0, 0⟩ ⟨0, 0, 100⟩
        sampleWpState).limitedSpeedXyCms ≤
      (setWpOriginAndDestination sampleConsts sampleEnv ⟨0, 0, 0⟩ ⟨0, 0, 100⟩
        sampleWpState).trackSpeed) := by
  have hsub : Vec3.sub ⟨0, 0, 100⟩ ⟨0, 0, 0⟩ = (⟨0, 0, 100⟩ : Vec3) := by
    unfold Vec3.sub
    norm_num
  have hlen : Vec3.length ⟨0, 0, 100⟩ = 100 := by
    unfold Vec3.length
    norm_num
    rw [show (10000 : ℝ) = 100 ^ 2 by norm_num]
    exact Real.sqrt_sq (by norm_num)
  have hparam : setWpParamState sampleConsts ⟨0, 0, 0⟩ ⟨0, 0, 100⟩ sampleWpState =
      { sampleWpState with
        origin := ⟨0, 0, 0⟩
        destination := ⟨0, 0, 100⟩
        posDeltaUnit := ⟨0, 0, 1⟩
        trackLength := 100
        wpAccelCms := 100
        pcSpeedXy := 500
        pcAccelXy := 100
        pcSpeedDownZ := -150
        pcSpeedUpZ := 250 } := by
    unfold setWpParamState
    rw [hsub, hlen]
    rw [if_neg (by norm_num : ¬(100 : ℝ) = 0)]
    simp only [sampleWpState, Vec3.divR]
    norm_num
  have hts : (setWpOriginAndDestination sampleConsts sampleEnv ⟨0, 0, 0⟩ ⟨0, 0, 100⟩
      sampleWpState).trackSpeed =
      calcTrackSpeed (setWpParamState sampleConsts ⟨0, 0, 0⟩ ⟨0, 0, 100⟩
        sampleWpState) := rfl
  have hts2 : (setWpOriginAndDestination sampleConsts sampleEnv ⟨0, 0, 0⟩ ⟨0, 0, 100⟩
      sampleWpState).trackSpeed = 250 := by
    rw [hts, hparam]
    unfold calcTrackSpeed posDeltaUnitXy pythagorous2
    simp only [sampleWpState]
    norm_num [Real.sqrt_zero]
  have hls : (setWpOriginAndDestination sampleConsts sampleEnv ⟨0, 0, 0⟩ ⟨0, 0, 100⟩
      sampleWpState).limitedSpeedXyCms =
      constrainFloat (sampleEnv.currVel.x *
          (setWpParamState sampleConsts ⟨0, 0, 0⟩ ⟨0, 0, 100⟩ sampleWpState).posDeltaUnit.x
        + sampleEnv.currVel.y *
          (setWpParamState sampleConsts ⟨0, 0, 0⟩ ⟨0, 0, 100⟩ sampleWpState).posDeltaUnit.y
        + sampleEnv.currVel.z *
          (setWpParamState sampleConsts ⟨0, 0, 0⟩ ⟨0, 0, 100⟩ sampleWpState).posDeltaUnit.z)
        0 sampleWpState.wpSpeedCms := rfl
  have hls2 : (setWpOriginAndDestination sampleConsts sampleEnv ⟨0, 0, 0⟩ ⟨0, 0, 100⟩
      sampleWpState).limitedSpeedXyCms = 400 := by
    rw [hls, hparam]
    unfold constrainFloat
    simp only [sampleEnv, sampleWpState]
    norm_num
  rw [hls2, hts2]
  norm_num

/-- C3 counterexample: with the default parameters, scaling the stored
direction vector `(0,0,1)` by 2 changes the quantities computed by
`calculate_wp_leash_length` (the track acceleration halves from 250 to
125), so the function is not homogeneous of degree 0 in the direction
vector. -/
theorem calc_leash_not_degree_zero_counterexample :
    ¬((calculateWpLeashLength sampleConsts sampleEnv
        { sampleWpState with posDeltaUnit := Vec3.smul ⟨0, 0, 1⟩ 2 }).trackAccel =
      (calculateWpLeashLength sampleConsts sampleEnv
        { sampleWpState with posDeltaUnit := ⟨0, 0, 1⟩ }).trackAccel ∧
    (calculateWpLeashLength sampleConsts sampleEnv
        { sampleWpState with posDeltaUnit := Vec3.smul ⟨0, 0, 1⟩ 2 }).trackSpeed =
      (calculateWpLeashLength sampleConsts sampleEnv
        { sampleWpState with posDeltaUnit := ⟨0, 0, 1⟩ }).trackSpeed ∧
    (calculateWpLeashLength sampleConsts sampleEnv
        { sampleWpState with posDeltaUnit := Vec3.smul ⟨0, 0, 1⟩ 2 }).trackLeashLength =
      (calculateWpLeashLength sampleConsts sampleEnv
        { sampleWpState with posDeltaUnit := ⟨0, 0, 1⟩ }).trackLeashLength) := by
  rintro ⟨h1, -, -⟩
  have e1 : (calculateWpLeashLength sampleConsts sampleEnv
      { sampleWpState with posDeltaUnit := Vec3.smul ⟨0, 0, 1⟩ 2 }).trackAccel = 125 := by
    show calcTrackAccel sampleConsts
      { sampleWpState with posDeltaUnit := Vec3.smul ⟨0, 0, 1⟩ 2 } = 125
    unfold calcTrackAccel posDeltaUnitXy pythagorous2 Vec3.smul
    simp only [sampleConsts, sampleWpState]
    norm_num [Real.sqrt_zero]
  have e2 : (calculateWpLeashLength sampleConsts sampleEnv
      { sampleWpState with posDeltaUnit := ⟨0, 0, 1⟩ }).trackAccel = 250 := by
    show calcTrackAccel sampleConsts
      { sampleWpState with posDeltaUnit := ⟨0, 0, 1⟩ } = 250
    unfold calcTrackAccel posDeltaUnitXy pythagorous2
    simp only [sampleConsts, sampleWpState]
    norm_num [Real.sqrt_zero]
  rw [e1, e2] at h1
  norm_num at h1

/-- C3 (amended): `calculate_wp_leash_length` is homogeneous of degree
-1 in a nonzero direction vector: rescaling the stored direction by a
positive factor `k` divides `_track_accel`, `_track_speed` and
`_track_leash_length` by `k`. -/
theorem calc_leash_homogeneous_deg_neg_one (c : Consts) (env : WPEnv)
    (st : WPNavState) (u : Vec3) (k : ℝ) (hk : 0 < k) (hu : u ≠ Vec3.zero) :
    (calculateWpLeashLength c env { st with posDeltaUnit := u.smul k }).trackAccel =
      (calculateWpLeashLength c env { st with posDeltaUnit := u }).trackAccel / k ∧
    (calculateWpLeashLength c env { st with posDeltaUnit := u.smul k }).trackSpeed =
      (calculateWpLeashLength c env { st with posDeltaUnit := u }).trackSpeed / k ∧
    (calculateWpLeashLength c env
        { st with posDeltaUnit := u.smul k }).trackLeashLength =
      (calculateWpLeashLength c env
        { st with posDeltaUnit := u }).trackLeashLength / k :=
  ⟨calcTrackAccel_smul c st u k hk hu, calcTrackSpeed_smul st u k hk hu,
    calcTrackLeash_smul c env st u k hk hu⟩

theorem calc_leash_homogeneous_deg_neg_one_witness :
    ((0 : ℝ) < 2 ∧ (⟨0, 0, 1⟩ : Vec3) ≠ Vec3.zero) ∧
    ((calculateWpLeashLength sampleConsts sampleEnv
        { sampleWpState with posDeltaUnit := Vec3.smul ⟨0, 0, 1⟩ 2 }).trackAccel =
      (calculateWpLeashLength sampleConsts sampleEnv
        { sampleWpState with posDeltaUnit := ⟨0, 0, 1⟩ }).trackAccel / 2 ∧
    (calculateWpLeashLength sampleConsts sampleEnv
        { sampleWpState with posDeltaUnit := Vec3.smul ⟨0, 0, 1⟩ 2 }).trackSpeed =
      (calculateWpLeashLength sampleConsts sampleEnv
        { sampleWpState with posDeltaUnit := ⟨0, 0, 1⟩ }).trackSpeed / 2 ∧
    (calculateWpLeashLength sampleConsts sampleEnv
        { sampleWpState with posDeltaUnit := Vec3.smul ⟨0, 0, 1⟩ 2 }).trackLeashLength =
      (calculateWpLeashLength sampleConsts sampleEnv
        { sampleWpState with posDeltaUnit := ⟨0, 0, 1⟩ }).trackLeashLength / 2) :=
  ⟨⟨by norm_num, by intro h; exact absurd (congrArg Vec3.z h) (by norm_num [Vec3.zero])⟩,
    calc_leash_homogeneous_deg_neg_one sampleConsts sampleEnv sampleWpState
      ⟨0, 0, 1⟩ 2 (by norm_num)
      (by intro h; exact absurd (congrArg Vec3.z h) (by norm_num [Vec3.zero]))⟩

/-- C4: a zero-length segment (`origin == destination`) set with
`set_wp_origin_and_destination` has the zero vector as
`_pos_delta_unit` and `WPNAV_LEASH_LENGTH_MIN` as
`_track_leash_length`; `_track_desired` stays 0 through every
subsequent `advance_wp_target_along_track` call; and a slow (non-fast)
waypoint is marked reached by the advance call made while the vehicle
position is within `WP_RADIUS` of the destination. -/
theorem zero_length_segment_behaviour (c : Consts) (env0 : WPEnv) (o : Vec3)
    (st : WPNavState) (steps : List (WPEnv × ℝ)) (env1 : WPEnv) (dt1 : ℝ)
    (hdist : (env1.currPos.sub o).length ≤ st.wpRadiusCm) :
    (setWpOriginAndDestination c env0 o o st).posDeltaUnit = Vec3.zero ∧
    (setWpOriginAndDestination c env0 o o st).trackLeashLength =
      c.wpnavLeashLengthMin ∧
    (advanceList steps (setWpOriginAndDestination c env0 o o st)).trackDesired = 0 ∧
    (advanceWpTargetAlongTrack env1 dt1
      (advanceList steps
        (setWpOriginAndDestination c env0 o o st))).reachedDestination = true := by
  have hsub : Vec3.sub o o = (⟨0, 0, 0⟩ : Vec3) := by
    unfold Vec3.sub
    ext <;> simp
  have hlen0 : (Vec3.sub o o).length = 0 := by
    rw [hsub]
    show Real.sqrt (0 * 0 + 0 * 0 + 0 * 0) = 0
    norm_num [Real.sqrt_zero]
  have hu : (setWpOriginAndDestination c env0 o o st).posDeltaUnit = Vec3.zero := by
    show (if (Vec3.sub o o).length = 0 then Vec3.zero
      else (Vec3.sub o o).divR (Vec3.sub o o).length) = Vec3.zero
    rw [if_pos hlen0]
  have hleash : (setWpOriginAndDestination c env0 o o st).trackLeashLength =
      c.wpnavLeashLengthMin := by
    show calcTrackLeash c env0 (setWpParamState c o o st) = c.wpnavLeashLengthMin
    unfold calcTrackLeash posDeltaUnitXy
    rw [show (setWpParamState c o o st).posDeltaUnit = Vec3.zero from hu]
    norm_num [Vec3.zero, pythagorous2, Real.sqrt_zero]
  have hlenS : (setWpOriginAndDestination c env0 o o st).trackLength = 0 := hlen0
  have hdz := advanceList_desired_zero steps
    (setWpOriginAndDestination c env0 o o st) hlenS rfl
  obtain ⟨-, hLlen, hLdest, hLfast, hLrad⟩ := advanceList_preserved steps
    (setWpOriginAndDestination c env0 o o st)
  refine ⟨hu, hleash, hdz, ?_⟩
  refine advance_reached_true env1 dt1 _ (hLlen.trans hlenS) hdz ?_ ?_
  · rw [hLfast]
    rfl
  · rw [hLdest, hLrad]
    exact hdist

theorem zero_length_segment_behaviour_witness :
    ((sampleEnv.currPos.sub ⟨0, 0, 0⟩).length ≤ sampleWpState.wpRadiusCm) ∧
    ((setWpOriginAndDestination sampleConsts sampleEnv ⟨0, 0, 0⟩ ⟨0, 0, 0⟩
        sampleWpState).posDeltaUnit = Vec3.zero ∧
      (setWpOriginAndDestination sampleConsts sampleEnv ⟨0, 0, 0⟩ ⟨0, 0, 0⟩
        sampleWpState).trackLeashLength = sampleConsts.wpnavLeashLengthMin ∧
      (advanceList [] (setWpOriginAndDestination sampleConsts sampleEnv
        ⟨0, 0, 0⟩ ⟨0, 0, 0⟩ sampleWpState)).trackDesired = 0 ∧
      (advanceWpTargetAlongTrack sampleEnv (1 / 10)
        (advanceList [] (setWpOriginAndDestination sampleConsts sampleEnv
          ⟨0, 0, 0⟩ ⟨0, 0, 0⟩ sampleWpState))).reachedDestination = true) := by
  have hdist : (sampleEnv.currPos.sub ⟨0, 0, 0⟩).length ≤ sampleWpState.wpRadiusCm := by
    simp only [sampleEnv, sampleWpState, Vec3.sub, Vec3.length]
    norm_num [Real.sqrt_zero]
  exact ⟨hdist, zero_length_segment_behaviour sampleConsts sampleEnv ⟨0, 0, 0⟩
    sampleWpState [] sampleEnv (1 / 10) hdist⟩

/-- C5: after every call to `calc_loiter_desired_velocity` with
`nav_dt >= 0`, the feed-forward desired velocity handed to the position
controller has magnitude at most the loiter speed as held after its
lower clamp, for every pilot acceleration, yaw and prior desired
velocity. -/
theorem loiter_desired_velocity_capped (c : Consts) (navDt cosYaw sinYaw : ℝ)
    (st : LoiterState) (hdt : 0 ≤ navDt) (hmin : 0 ≤ c.wpnavLoiterSpeedMin) :
    pythagorous2 (calcLoiterDesiredVelocity c navDt cosYaw sinYaw st).desiredVelX
        (calcLoiterDesiredVelocity c navDt cosYaw sinYaw st).desiredVelY ≤
      (calcLoiterDesiredVelocity c navDt cosYaw sinYaw st).loiterSpeedCms := by
  have hs : 0 ≤ (loiterSpeedFloor c st).loiterSpeedCms := by
    unfold loiterSpeedFloor
    split_ifs with h
    · exact hmin
    · exact le_trans hmin (not_lt.1 h)
  unfold calcLoiterDesiredVelocity
  rw [if_neg (not_lt.2 hdt)]
  simp only [apply_ite LoiterState.desiredVelX, apply_ite LoiterState.desiredVelY,
    apply_ite LoiterState.loiterSpeedCms, ite_self]
  exact loiter_cap_core _ _ _ hs

theorem loiter_desired_velocity_capped_witness :
    (0 : ℝ) ≤ 1 / 100 ∧ (0 : ℝ) ≤ sampleConsts.wpnavLoiterSpeedMin ∧
    pythagorous2
        (calcLoiterDesiredVelocity sampleConsts (1 / 100) 1 0
          sampleLoiterState).desiredVelX
        (calcLoiterDesiredVelocity sampleConsts (1 / 100) 1 0
          sampleLoiterState).desiredVelY ≤
      (calcLoiterDesiredVelocity sampleConsts (1 / 100) 1 0
        sampleLoiterState).loiterSpeedCms :=
  ⟨by norm_num, by simp only [sampleConsts]; norm_num,
    loiter_desired_velocity_capped sampleConsts (1 / 100) 1 0 sampleLoiterState
      (by norm_num) (by simp only [sampleConsts]; norm_num)⟩

/-- C7: once the drift initialisation is complete (the window has elapsed
and the ground-level average has been folded in, so the sample count is
zero) and the drift time constant is non-negative, a call whose
innovation `baro_altitude + alt_offset - drift_est -
(external_alt - drift_gnd_level)` is at least 5 metres skips the
low-pass update entirely, leaving the state (in particular
`_drift_est`) unchanged. -/
theorem drift_gate_skips_update (now alt dt : ℝ) (st : BaroState)
    (hwin : st.calTime + st.driftInitPeriod * 1000 ≤ now)
    (hcount : st.driftInitCount = 0)
    (htc : 0 ≤ st.driftTc)
    (hinnov : 5 ≤ st.altitude + st.altOffset - st.driftEst - (alt - st.driftGndLevel)) :
    updateDriftEstimate now alt dt st = st := by
  have hinit : driftInitStep dt st = st := by
    unfold driftInitStep
    rw [if_neg (by simp [hcount])]
  unfold updateDriftEstimate
  rw [if_neg (not_lt.2 hwin)]
  simp only [hinit]
  rw [if_neg (not_lt.2 htc), if_neg (not_lt.2 hinnov)]

theorem drift_gate_skips_update_witness :
    (sampleBaroState.calTime + sampleBaroState.driftInitPeriod * 1000 ≤ 200000 ∧
      sampleBaroState.driftInitCount = 0 ∧
      (0 : ℝ) ≤ sampleBaroState.driftTc ∧
      5 ≤ sampleBaroState.altitude + sampleBaroState.altOffset -
        sampleBaroState.driftEst - (20 - sampleBaroState.driftGndLevel)) ∧
    updateDriftEstimate 200000 20 (1 / 5) sampleBaroState = sampleBaroState := by
  have h1 : sampleBaroState.calTime + sampleBaroState.driftInitPeriod * 1000 ≤
      (200000 : ℝ) := by simp only [sampleBaroState]; norm_num
  have h2 : sampleBaroState.driftInitCount = 0 := rfl
  have h3 : (0 : ℝ) ≤ sampleBaroState.driftTc := by
    simp only [sampleBaroState]; norm_num
  have h4 : (5 : ℝ) ≤ sampleBaroState.altitude + sampleBaroState.altOffset -
      sampleBaroState.driftEst - (20 - sampleBaroState.driftGndLevel) := by
    simp only [sampleBaroState]; norm_num
  exact ⟨⟨h1, h2, h3, h4⟩,
    drift_gate_skips_update 200000 20 (1 / 5) sampleBaroState h1 h2 h3 h4⟩

/-- C8: with a negative drift time constant, once the drift
initialisation period has elapsed every call to `update_drift_estimate`
ends with `_drift_est = 0`, so `get_drift_estimate` returns 0. -/
theorem drift_negative_tc_disables_estimator (now alt dt : ℝ) (st : BaroState)
    (hwin : st.calTime + st.driftInitPeriod * 1000 ≤ now)
    (htc : st.driftTc < 0) :
    (updateDriftEstimate now alt dt st).driftEst = 0 ∧
      getDriftEstimate (updateDriftEstimate now alt dt st) = 0 := by
  have htc1 : (driftInitStep dt st).driftTc = st.driftTc := by
    unfold driftInitStep
    split_ifs <;> rfl
  unfold updateDriftEstimate getDriftEstimate
  rw [if_neg (not_lt.2 hwin)]
  simp [htc1, if_pos htc]

theorem drift_negative_tc_disables_estimator_witness :
    (sampleBaroState.calTime + sampleBaroState.driftInitPeriod * 1000 ≤ 200000 ∧
      ({ sampleBaroState with driftTc := -1 } : BaroState).driftTc < 0) ∧
    (updateDriftEstimate 200000 20 (1 / 5)
        { sampleBaroState with driftTc := -1 }).driftEst = 0 ∧
      getDriftEstimate (updateDriftEstimate 200000 20 (1 / 5)
        { sampleBaroState with driftTc := -1 }) = 0 := by
  have h1 : ({ sampleBaroState with driftTc := -1 } : BaroState).calTime +
      ({ sampleBaroState with driftTc := -1 } : BaroState).driftInitPeriod * 1000 ≤
      (200000 : ℝ) := by simp only [sampleBaroState]; norm_num
  have h2 : ({ sampleBaroState with driftTc := -1 } : BaroState).driftTc < 0 := by
    simp only [sampleBaroState]; norm_num
  exact ⟨⟨h1, h2⟩,
    drift_negative_tc_disables_estimator 200000 20 (1 / 5)
      { sampleBaroState with driftTc := -1 } h1 h2⟩

end ArduNav
